import Mathlib

/-!
Shallow embedding of `src/huggingface_auth.py` (learning-at-home/dalle):
a HuggingFace-backed token authorizer with a generic retry executor
(`call_with_retries`), a join/refresh HTTP exchange (`_join_experiment`),
and local token validation (`is_token_valid`, `does_token_need_refreshing`).
Timestamps are modelled in seconds as `Int`; `datetime.utcnow()` is passed
in explicitly as `now`; raised Python exceptions become `Except.error` of a
`PyExc` value.
-/

namespace HFAuth

/-- The Python exception classes this module can raise or observe.
`notInAllowlistError` and `invalidCredentialsError` are the two subclasses
of `NonRetriableError`; the rest are unrelated to it. -/
inductive PyExc where
  | valueError
  | typeError
  | attributeError
  | connectionError
  | httpError (status : Nat)
  | invalidCredentialsError
  | notInAllowlistError
deriving DecidableEq

/-- Which exceptions the `except NonRetriableError: raise` clause of
`call_with_retries` matches: exactly the `NonRetriableError` subclasses. -/
def PyExc.isNonRetriable : PyExc → Bool
  | .invalidCredentialsError => true
  | .notInAllowlistError => true
  | _ => false

/-- Model of a timestamp string field as `datetime.fromisoformat` sees it:
either parsing raises `ValueError`, or it yields a timestamp value (seconds
since the epoch) together with whether timezone info is attached
(`tzinfo is not None`). -/
inductive IsoString where
  | unparseable
  | stamp (value : Int) (aware : Bool)
deriving DecidableEq

/-- `datetime.fromisoformat`: `none` models a raised `ValueError`. -/
def fromisoformat : IsoString → Option (Int × Bool)
  | .unparseable => none
  | .stamp v aware => some (v, aware)

/-- `hivemind.proto.auth_pb2.AccessToken`, the fields this module uses.
Byte-valued fields are modelled as `String`. -/
structure AccessToken where
  username : String
  public_key : String
  expiration_time : IsoString
  signature : String
deriving DecidableEq

/-- `hivemind.utils.crypto.RSAPublicKey` as consumed here: an abstract
verification capability `verify(data, signature) -> bool`. -/
structure RSAPublicKey where
  verify : String × String × IsoString → String → Bool

/-- `HuggingFaceAuthorizer._token_to_bytes`: the canonical signed payload
`f'{username} {public_key} {expiration_time}'`, modelled as the triple of
the fields it concatenates. -/
def token_to_bytes (access_token : AccessToken) : String × String × IsoString :=
  (access_token.username, access_token.public_key, access_token.expiration_time)

/-- `HuggingFaceAuthorizer.is_token_valid`, with `datetime.utcnow()` passed
in as `now`. When no authority key is held (`self._authority_public_key is
None`) the attribute access `None.verify` raises, modelled as
`.error .attributeError`; the `ValueError` from `fromisoformat` is caught
and yields `.ok false`, as do a timezone-aware or expired timestamp. -/
def is_token_valid (authority_public_key : Option RSAPublicKey)
    (access_token : AccessToken) (now : Int) : Except PyExc Bool :=
  match authority_public_key with
  | none => .error .attributeError
  | some key =>
    if !(key.verify (token_to_bytes access_token) access_token.signature) then
      .ok false
    else
      match fromisoformat access_token.expiration_time with
      | none => .ok false
      | some (expiration_time, aware) =>
        if aware then .ok false
        else if expiration_time < now then .ok false
        else .ok true

/-- `_MAX_LATENCY = timedelta(minutes=1)`, in seconds. -/
def MAX_LATENCY : Int := 60

/-- `HuggingFaceAuthorizer.does_token_need_refreshing`, with
`datetime.utcnow()` passed in as `now`. There is no try/except here: a
parse failure propagates as `ValueError`, and comparing a timezone-aware
timestamp with the naive `utcnow() + _MAX_LATENCY` raises `TypeError`. -/
def does_token_need_refreshing (access_token : AccessToken) (now : Int) :
    Except PyExc Bool :=
  match fromisoformat access_token.expiration_time with
  | none => .error .valueError
  | some (expiration_time, aware) =>
    if aware then .error .typeError
    else .ok (decide (expiration_time < now + MAX_LATENCY))

/-- Outcome of `call_with_retries`: the final value of the closure state the
operation reads and writes, the returned or raised value (`.ok none` when
the `for` body never ran, i.e. `n_retries = 0` makes the function fall
through and return `None`), how many times `func` was called, and the sleep
durations in order. -/
structure RetryTrace (σ T : Type) where
  state : σ
  result : Except PyExc (Option T)
  calls : Nat
  sleeps : List ℚ

/-- The `for i in range(n_retries)` loop of `call_with_retries`, entered at
attempt index `i` with `fuel` attempts remaining (`fuel = n_retries - i`),
so the source's last-attempt test `i == n_retries - 1` is exactly
`fuel = 1`. A success returns; a `NonRetriableError` re-raises; any other
exception re-raises on the last attempt and otherwise sleeps
`initial_delay * 2 ** i` and continues. -/
def retryFrom {σ T : Type} (func : Nat → σ → σ × Except PyExc T)
    (initial_delay : ℚ) (i : Nat) (s : σ) : Nat → RetryTrace σ T
  | 0 => ⟨s, .ok none, 0, []⟩
  | fuel + 1 =>
    match func i s with
    | (s', .ok v) => ⟨s', .ok (some v), 1, []⟩
    | (s', .error e) =>
      if e.isNonRetriable then ⟨s', .error e, 1, []⟩
      else
        match fuel with
        | 0 => ⟨s', .error e, 1, []⟩
        | fuel' + 1 =>
          let rest := retryFrom func initial_delay (i + 1) s' (fuel' + 1)
          ⟨rest.state, rest.result, rest.calls + 1,
            initial_delay * 2 ^ i :: rest.sleeps⟩

/-- `call_with_retries(func, n_retries, initial_delay)`; the source's default
arguments are `n_retries=10`, `initial_delay=1.0`. `func` is a zero-argument
closure whose successive calls may read and update the captured state `σ`. -/
def call_with_retries {σ T : Type} (func : Nat → σ → σ × Except PyExc T)
    (n_retries : Nat) (initial_delay : ℚ) (s : σ) : RetryTrace σ T :=
  retryFrom func initial_delay 0 s n_retries

/-- A stateless operation, given by the outcomes of its successive calls. -/
def pureOps {T : Type} (outcomes : Nat → Except PyExc T) :
    Nat → Unit → Unit × Except PyExc T :=
  fun i s => (s, outcomes i)

/-- The fields read out of a well-formed JSON body of the join endpoint's
success response. -/
structure JoinResponseBody where
  auth_server_public_key : RSAPublicKey
  coordinator_ip : String
  coordinator_port : Nat
  username : String
  peer_public_key : String
  expiration_time : IsoString
  signature : String

/-- One interaction with the authority endpoint as `_join_experiment`
observes it: either the PUT itself raises a transport error, or it returns
a response with a status code and a parsed JSON body. -/
inductive HttpResponse where
  | transportError
  | status (code : Nat) (body : JoinResponseBody)

/-- The mutable fields of `HuggingFaceAuthorizer` that the join and
validation logic touch; all start out `None` before the first join. -/
structure AuthState where
  authority_public_key : Option RSAPublicKey
  coordinator_ip : Option String
  coordinator_port : Option Nat
  local_access_token : Option AccessToken

/-- `HuggingFaceAuthorizer._join_experiment` on one observed response.
`raise_for_status()` raises `HTTPError` on a 4xx/5xx code; the except
clause catches exactly `HTTPError`, turns status 401 into
`NotInAllowlistError` and re-raises every other `HTTPError`; a transport
failure is not an `HTTPError` and propagates unchanged. On a success
response the assignments run in source order: the authority public key and
the coordinator address are stored first, so a `ValueError` raised by
`datetime.fromisoformat` on the token's expiration time escapes after those
updates and before `self._local_access_token` is replaced. The stored
expiration string is `str(datetime.fromisoformat(...))`, which re-parses to
the same timestamp and awareness. -/
def join_experiment_step (s : AuthState) (r : HttpResponse) :
    AuthState × Except PyExc Unit :=
  match r with
  | .transportError => (s, .error .connectionError)
  | .status code body =>
    if 400 ≤ code ∧ code < 600 then
      if code = 401 then (s, .error .notInAllowlistError)
      else (s, .error (.httpError code))
    else
      let s1 : AuthState :=
        { s with
          authority_public_key := some body.auth_server_public_key
          coordinator_ip := some body.coordinator_ip
          coordinator_port := some body.coordinator_port }
      match fromisoformat body.expiration_time with
      | none => (s1, .error .valueError)
      | some (expiration_value, aware) =>
        let access_token : AccessToken :=
          { username := body.username
            public_key := body.peer_public_key
            expiration_time := .stamp expiration_value aware
            signature := body.signature }
        ({ s1 with local_access_token := some access_token }, .ok ())

/-- `join_experiment`: `_join_experiment` under `call_with_retries` with the
source's default arguments; `responses` gives the authority's answer to the
i-th attempt. -/
def join_experiment (responses : Nat → HttpResponse) (s : AuthState) :
    RetryTrace AuthState Unit :=
  call_with_retries (fun i st => join_experiment_step st (responses i)) 10 1 s

/-- Outcome of a `get_token` call: the final authorizer state, how many
times it invoked the retry-wrapped join operation, and the returned token
(or the exception the join raised). -/
structure GetTokenResult where
  state : AuthState
  join_invocations : Nat
  result : Except PyExc (Option AccessToken)

/-- `HuggingFaceAuthorizer.get_token`: calls `self.join_experiment()`
unconditionally — there is no held-token or needs-refresh test — and then
returns `self._local_access_token`; an exception from the join propagates. -/
def get_token (responses : Nat → HttpResponse) (s : AuthState) :
    GetTokenResult :=
  let r := join_experiment responses s
  match r.result with
  | .error e => ⟨r.state, 1, .error e⟩
  | .ok _ => ⟨r.state, 1, .ok r.state.local_access_token⟩

/-- A token expiring far in the future (used as a held, fresh token). -/
def freshToken : AccessToken :=
  { username := "alice"
    public_key := "alice-pk"
    expiration_time := .stamp 1000000 false
    signature := "sig-alice" }

/-- An authorizer state holding `freshToken` after an earlier join. -/
def heldState : AuthState :=
  { authority_public_key := some ⟨fun _ _ => true⟩
    coordinator_ip := some "10.0.0.1"
    coordinator_port := some 8080
    local_access_token := some freshToken }

/-- An authority that answers every attempt with a well-formed success. -/
def okResponses : Nat → HttpResponse := fun _ =>
  .status 200
    { auth_server_public_key := ⟨fun _ _ => true⟩
      coordinator_ip := "10.0.0.1"
      coordinator_port := 8080
      username := "alice"
      peer_public_key := "alice-pk"
      expiration_time := .stamp 2000000 false
      signature := "sig-next" }

/-- A success body whose `expiration_time` does not parse. -/
def badExpirationBody : JoinResponseBody :=
  { auth_server_public_key := ⟨fun _ _ => false⟩
    coordinator_ip := "10.0.0.9"
    coordinator_port := 9090
    username := "bob"
    peer_public_key := "bob-pk"
    expiration_time := .unparseable
    signature := "sig-bob" }

/-- A pre-join state that still holds a previous token. -/
def staleState : AuthState :=
  { authority_public_key := none
    coordinator_ip := none
    coordinator_port := none
    local_access_token := some freshToken }

/-- Shared helper: one failing call with a `NonRetriableError` stops the
loop at once, whatever fuel remains. -/
theorem retryFrom_nonretriable_stops {σ T : Type}
    (func : Nat → σ → σ × Except PyExc T) (d : ℚ) (i : Nat) (s s' : σ)
    (e : PyExc) (fuel : Nat) (h0 : func i s = (s', .error e))
    (hperm : e.isNonRetriable = true) (hf : 1 ≤ fuel) :
    retryFrom func d i s fuel = ⟨s', .error e, 1, []⟩ := by
  obtain ⟨f, rfl⟩ : ∃ f, fuel = f + 1 := ⟨fuel - 1, by omega⟩
  simp [retryFrom, h0, hperm]

/-- Shared helper: peeling one backoff delay off the expected sleep list. -/
theorem backoff_cons (d : ℚ) (i k : Nat) :
    (List.range (k + 1)).map (fun m => d * 2 ^ (i + m))
      = d * 2 ^ i :: (List.range k).map (fun m => d * 2 ^ (i + 1 + m)) := by
  rw [List.range_succ_eq_map, List.map_cons, List.map_map]
  congr 1
  congr 1
  funext m
  show d * 2 ^ (i + (m + 1)) = d * 2 ^ (i + 1 + m)
  rw [show i + (m + 1) = i + 1 + m from by omega]

/-- Shared helper: a stateless operation that fails retriably on the first
`k` attempts from index `i` and succeeds on attempt `i + k` makes the loop
return that success after `k + 1` calls, sleeping `d * 2 ^ (i + m)` after
each failed attempt `m < k`, provided more than `k` attempts remain. -/
theorem retryFrom_pure_success {T : Type} (outcomes : Nat → Except PyExc T)
    (d : ℚ) (v : T) (k : Nat) :
    ∀ i fuel, k < fuel →
      (∀ j, j < k → ∃ e, outcomes (i + j) = .error e ∧
        e.isNonRetriable = false) →
      outcomes (i + k) = .ok v →
      retryFrom (pureOps outcomes) d i () fuel =
        ⟨(), .ok (some v), k + 1,
          (List.range k).map fun m => d * 2 ^ (i + m)⟩ := by
  induction k with
  | zero =>
    intro i fuel hk hfail hsucc
    obtain ⟨f, rfl⟩ : ∃ f, fuel = f + 1 := ⟨fuel - 1, by omega⟩
    have h0 : outcomes i = .ok v := by simpa using hsucc
    simp [retryFrom, pureOps, h0]
  | succ k ih =>
    intro i fuel hk hfail hsucc
    obtain ⟨f, rfl⟩ : ∃ f, fuel = f + 2 := ⟨fuel - 2, by omega⟩
    obtain ⟨e, he, het⟩ := hfail 0 (Nat.succ_pos k)
    rw [Nat.add_zero] at he
    have hrec := ih (i + 1) (f + 1) (by omega)
      (fun j hj => by
        obtain ⟨e', he', het'⟩ := hfail (j + 1) (by omega)
        exact ⟨e', by rw [show i + 1 + j = i + (j + 1) from by omega]; exact he',
          het'⟩)
      (by rw [show i + 1 + k = i + (k + 1) from by omega]; exact hsucc)
    simp only [retryFrom, pureOps, he, het, Bool.false_eq_true, if_false, hrec,
      backoff_cons d i k]

/-- Shared helper: a stateless operation that fails retriably on every one
of the remaining `fuel ≥ 1` attempts makes the loop call it exactly `fuel`
times, sleep after every attempt but the last, and re-raise the failure of
the last attempt, index `i + fuel - 1`. -/
theorem retryFrom_pure_exhaust {T : Type} (outcomes : Nat → Except PyExc T)
    (errs : Nat → PyExc) (d : ℚ) (fuel : Nat) :
    ∀ i, 1 ≤ fuel →
      (∀ j, j < fuel → outcomes (i + j) = .error (errs (i + j)) ∧
        (errs (i + j)).isNonRetriable = false) →
      retryFrom (pureOps outcomes) d i () fuel =
        ⟨(), .error (errs (i + (fuel - 1))), fuel,
          (List.range (fuel - 1)).map fun m => d * 2 ^ (i + m)⟩ := by
  induction fuel with
  | zero => intro i h; omega
  | succ f ih =>
    intro i _ hfail
    obtain ⟨h0, h0t⟩ := hfail 0 (Nat.succ_pos f)
    rw [Nat.add_zero] at h0 h0t
    cases f with
    | zero => simp [retryFrom, pureOps, h0, h0t]
    | succ f' =>
      have hrec := ih (i + 1) (by omega) (fun j hj => by
        obtain ⟨he', het'⟩ := hfail (j + 1) (by omega)
        rw [show i + 1 + j = i + (j + 1) from by omega]
        exact ⟨he', het'⟩)
      rw [show i + 1 + (f' + 1 - 1) = i + (f' + 1 + 1 - 1) from by omega]
        at hrec
      simp only [retryFrom, pureOps, h0, h0t, Bool.false_eq_true, if_false,
        hrec, Nat.add_sub_cancel, backoff_cons d i f']

/-- C5 (counterexample): with `n_retries = 0` the `for` body never runs, so
an operation whose first call would raise a `NonRetriableError` is executed
zero times — not once — and `call_with_retries` returns `None` instead of
re-raising the permanent failure. -/
theorem retry_zero_attempts_cex :
    (call_with_retries
        (pureOps fun _ => (.error .notInAllowlistError : Except PyExc Nat))
        0 1 ()).calls = 0
  ∧ (call_with_retries
        (pureOps fun _ => (.error .notInAllowlistError : Except PyExc Nat))
        0 1 ()).result = .ok none := ⟨rfl, rfl⟩

/-- C5 (amended): for every `n_retries ≥ 1`, an operation whose first call
raises a `NonRetriableError` makes `call_with_retries` re-raise it at once:
one execution, no sleeps, and the state is whatever that single call left. -/
theorem retry_permanent_immediate {σ T : Type}
    (func : Nat → σ → σ × Except PyExc T) (s s' : σ) (e : PyExc)
    (n : Nat) (d : ℚ) (hn : 1 ≤ n) (h0 : func 0 s = (s', .error e))
    (hperm : e.isNonRetriable = true) :
    call_with_retries func n d s = ⟨s', .error e, 1, []⟩ :=
  retryFrom_nonretriable_stops func d 0 s s' e n h0 hperm hn

/-- C5 (witness): a concrete permanent failure with `n_retries = 7`. -/
theorem retry_permanent_immediate_witness :
    call_with_retries
        (fun _ (s : Unit) =>
          (s, (.error .notInAllowlistError : Except PyExc Nat))) 7 1 ()
      = ⟨(), .error .notInAllowlistError, 1, []⟩ :=
  retry_permanent_immediate _ () () .notInAllowlistError 7 1 (by decide)
    rfl rfl

/-- C6: an operation that fails retriably on its first `N - 1` calls and
succeeds on the `N`-th, run with `n_retries ≥ N`, returns the success after
exactly `N` executions with exactly `N - 1` sleeps of `d * 2 ^ i` for
zero-based attempt index `i = 0, …, N - 2`. -/
theorem retry_transient_then_success {T : Type}
    (outcomes : Nat → Except PyExc T) (d : ℚ) (n N : Nat) (v : T)
    (hN : 1 ≤ N) (hn : N ≤ n)
    (hfail : ∀ i, i < N - 1 → ∃ e, outcomes i = .error e ∧
      e.isNonRetriable = false)
    (hsucc : outcomes (N - 1) = .ok v) :
    call_with_retries (pureOps outcomes) n d ()
      = ⟨(), .ok (some v), N, (List.range (N - 1)).map fun i => d * 2 ^ i⟩ := by
  have h := retryFrom_pure_success outcomes d v (N - 1) 0 n (by omega)
    (fun j hj => by simpa using hfail j hj) (by simpa using hsucc)
  rw [call_with_retries, h]
  simp [Nat.sub_add_cancel hN]

/-- C6 (witness): two transient failures then success, `n_retries = 10`. -/
theorem retry_transient_then_success_witness :
    call_with_retries
        (pureOps fun i =>
          (if i < 2 then .error .connectionError else .ok 42 :
            Except PyExc Nat)) 10 1 ()
      = ⟨(), .ok (some 42), 3, (List.range 2).map fun i => (1 : ℚ) * 2 ^ i⟩ :=
  retry_transient_then_success _ 1 10 3 42 (by decide) (by decide)
    (fun i hi => ⟨.connectionError, by rw [if_pos hi], rfl⟩) rfl

/-- C7: with `n_retries = N ≥ 1` and an operation that fails retriably on
every call, `call_with_retries` executes it exactly `N` times, re-raises the
failure of the `N`-th (last) attempt, and performs exactly `N - 1` sleeps —
none after the final failed attempt. -/
theorem retry_exhaustion {T : Type} (outcomes : Nat → Except PyExc T)
    (errs : Nat → PyExc) (d : ℚ) (N : Nat) (hN : 1 ≤ N)
    (hfail : ∀ i, i < N → outcomes i = .error (errs i) ∧
      (errs i).isNonRetriable = false) :
    call_with_retries (pureOps outcomes) N d ()
      = ⟨(), .error (errs (N - 1)), N,
          (List.range (N - 1)).map fun i => d * 2 ^ i⟩
  ∧ (call_with_retries (pureOps outcomes) N d ()).sleeps.length = N - 1 := by
  have h := retryFrom_pure_exhaust outcomes errs d N 0 hN
    (fun j hj => by simpa using hfail j hj)
  rw [Nat.zero_add] at h
  constructor
  · rw [call_with_retries, h]
    simp
  · rw [call_with_retries, h]
    simp

/-- C7 (witness): every call fails with a transient connection error,
`n_retries = 3`. -/
theorem retry_exhaustion_witness :
    call_with_retries
        (pureOps fun _ => (.error .connectionError : Except PyExc Nat)) 3 1 ()
      = ⟨(), .error .connectionError, 3,
          (List.range 2).map fun i => (1 : ℚ) * 2 ^ i⟩
  ∧ (call_with_retries
        (pureOps fun _ => (.error .connectionError : Except PyExc Nat))
        3 1 ()).sleeps.length = 2 :=
  retry_exhaustion _ (fun _ => .connectionError) 1 3 (by decide)
    (fun i _ => ⟨rfl, rfl⟩)

/-- C10: calling `is_token_valid` before any successful join, while the
authority public key is still `None`, raises at the signature-verification
step (`None.verify` is an attribute error) instead of returning `false`. -/
theorem no_key_is_token_valid_raises (t : AccessToken) (now : Int) :
    is_token_valid none t now = .error .attributeError := rfl

/-- C9: a token whose expiration string does not parse makes
`does_token_need_refreshing` raise the parse error, while `is_token_valid`
catches the same failure and returns `false` (whatever the signature
check says). -/
theorem unparseable_expiration_behavior (u pk sig : String) (now : Int)
    (key : RSAPublicKey) :
    does_token_need_refreshing ⟨u, pk, .unparseable, sig⟩ now
      = .error .valueError
  ∧ is_token_valid (some key) ⟨u, pk, .unparseable, sig⟩ now = .ok false := by
  refine ⟨rfl, ?_⟩
  cases hv : key.verify (token_to_bytes ⟨u, pk, .unparseable, sig⟩) sig <;>
    simp [is_token_valid, fromisoformat, hv]

/-- C4: for a token whose expiration parses as a naive timestamp `v`,
`does_token_need_refreshing` at time `now` returns exactly the truth value
of `v < now + MAX_LATENCY`, where `MAX_LATENCY` is the fixed one-minute
margin; in particular `v = now + MAX_LATENCY` does not need refresh. -/
theorem needs_refresh_spec (u pk sig : String) (v now : Int) :
    does_token_need_refreshing ⟨u, pk, .stamp v false, sig⟩ now
      = .ok (decide (v < now + MAX_LATENCY))
  ∧ MAX_LATENCY = 60
  ∧ does_token_need_refreshing ⟨u, pk, .stamp (now + MAX_LATENCY) false, sig⟩
      now = .ok false := by
  refine ⟨rfl, rfl, ?_⟩
  simp [does_token_need_refreshing, fromisoformat]

/-- C2: `is_token_valid` (with an authority key held) returns `true` exactly
when the signature verifies over the canonical payload, the expiration
string parses, the parsed timestamp is naive, and it is not strictly before
`now`; a failed signature check yields `false` regardless of the expiration
field, and an expiration exactly equal to `now` is not treated as expired. -/
theorem is_token_valid_spec (key : RSAPublicKey) (t : AccessToken)
    (now : Int) :
    (is_token_valid (some key) t now = .ok true ↔
      key.verify (token_to_bytes t) t.signature = true ∧
      ∃ v : Int, fromisoformat t.expiration_time = some (v, false) ∧
        ¬ v < now)
  ∧ (key.verify (token_to_bytes t) t.signature = false →
      is_token_valid (some key) t now = .ok false)
  ∧ (∀ u pk sig,
      key.verify (token_to_bytes ⟨u, pk, .stamp now false, sig⟩) sig = true →
      is_token_valid (some key) ⟨u, pk, .stamp now false, sig⟩ now
        = .ok true) := by
  refine ⟨?_, ?_, ?_⟩
  · cases hv : key.verify (token_to_bytes t) t.signature with
    | false => simp [is_token_valid, hv]
    | true =>
      cases hp : fromisoformat t.expiration_time with
      | none => simp [is_token_valid, hv, hp]
      | some p =>
        obtain ⟨v, aware⟩ := p
        cases aware with
        | true => simp [is_token_valid, hv, hp]
        | false =>
          by_cases hlt : v < now
          · simp [is_token_valid, hv, hp, hlt]
          · simp [is_token_valid, hv, hp, hlt]
            omega
  · intro hv
    simp [is_token_valid, hv]
  · intro u pk sig hv
    simp [is_token_valid, fromisoformat, hv]

/-- C3: `_join_experiment` classifies failures by HTTP status: a 401
response raises `NotInAllowlistError`, which is non-retriable, so
`call_with_retries` stops after a single call; every other HTTP error
status re-raises the `HTTPError` and a transport failure propagates
unchanged, and neither is non-retriable, so both are eligible for retry. -/
theorem join_failure_classification (s : AuthState) (body : JoinResponseBody) :
    ((join_experiment_step s (.status 401 body)).2
        = .error .notInAllowlistError
      ∧ PyExc.isNonRetriable .notInAllowlistError = true
      ∧ ∀ n, 1 ≤ n →
          (call_with_retries
            (fun i st => join_experiment_step st
              ((fun _ => .status 401 body) i)) n 1 s).calls = 1)
  ∧ (∀ code, 400 ≤ code → code < 600 → code ≠ 401 →
      (join_experiment_step s (.status code body)).2
          = .error (.httpError code)
        ∧ PyExc.isNonRetriable (.httpError code) = false)
  ∧ ((join_experiment_step s .transportError).2 = .error .connectionError
      ∧ PyExc.isNonRetriable .connectionError = false) := by
  refine ⟨⟨?_, rfl, ?_⟩, ?_, rfl, rfl⟩
  · simp [join_experiment_step]
  · intro n hn
    rw [call_with_retries, retryFrom_nonretriable_stops _ 1 0 s s
      .notInAllowlistError n (by simp [join_experiment_step]) rfl hn]
  · intro code h4 h6 hne
    constructor
    · simp [join_experiment_step, h4, h6, hne]
    · rfl

/-- C8 (counterexample): a success response whose token expiration string
does not parse makes `_join_experiment` raise `ValueError` after the
authority public key and the coordinator address have already been
overwritten, while the previously held token stays in place — a new
authority key paired with the stale token. -/
theorem join_incomplete_update_cex :
    (join_experiment_step staleState (.status 200 badExpirationBody)).2
      = .error .valueError
  ∧ (join_experiment_step staleState
      (.status 200 badExpirationBody)).1.coordinator_ip = some "10.0.0.9"
  ∧ (join_experiment_step staleState
      (.status 200 badExpirationBody)).1.coordinator_port = some 9090
  ∧ ((join_experiment_step staleState
      (.status 200 badExpirationBody)).1.authority_public_key).isSome = true
  ∧ staleState.authority_public_key = none
  ∧ (join_experiment_step staleState
      (.status 200 badExpirationBody)).1.local_access_token
      = some freshToken := ⟨rfl, rfl, rfl, rfl, rfl, rfl⟩

/-- C8 (amended): a join attempt on an HTTP error status or a transport
failure raises and leaves the state unchanged, and a success response whose
expiration parses updates authority key, coordinator address and token
together; but a success response whose expiration string fails to parse
raises `ValueError` with the authority key and coordinator address already
updated and the held token stale. A new token is never stored with a stale
authority key. -/
theorem join_update_discipline (s : AuthState) (code : Nat)
    (body : JoinResponseBody) :
    ((join_experiment_step s .transportError).1 = s)
  ∧ (400 ≤ code → code < 600 →
      (join_experiment_step s (.status code body)).1 = s)
  ∧ (¬ (400 ≤ code ∧ code < 600) → ∀ v aware,
      body.expiration_time = .stamp v aware →
        (join_experiment_step s (.status code body)).2 = .ok ()
      ∧ (join_experiment_step s (.status code body)).1 =
          { authority_public_key := some body.auth_server_public_key
            coordinator_ip := some body.coordinator_ip
            coordinator_port := some body.coordinator_port
            local_access_token := some
              { username := body.username
                public_key := body.peer_public_key
                expiration_time := .stamp v aware
                signature := body.signature } })
  ∧ (¬ (400 ≤ code ∧ code < 600) → body.expiration_time = .unparseable →
        (join_experiment_step s (.status code body)).2 = .error .valueError
      ∧ (join_experiment_step s (.status code body)).1 =
          { authority_public_key := some body.auth_server_public_key
            coordinator_ip := some body.coordinator_ip
            coordinator_port := some body.coordinator_port
            local_access_token := s.local_access_token }) := by
  refine ⟨rfl, ?_, ?_, ?_⟩
  · intro h4 h6
    by_cases h1 : code = 401 <;> simp [join_experiment_step, h4, h6, h1]
  · intro herr v aware hexp
    constructor <;> simp [join_experiment_step, herr, hexp, fromisoformat]
  · intro herr hexp
    constructor <;> simp [join_experiment_step, herr, hexp, fromisoformat]

/-- C1 (counterexample): a state holding a token that does not need
refreshing (`does_token_need_refreshing` is `false` at the current time),
on which `get_token` nevertheless invokes the retry-wrapped join operation
— the source's `get_token` calls `self.join_experiment()` unconditionally. -/
theorem get_token_joins_unconditionally_cex :
    heldState.local_access_token = some freshToken
  ∧ does_token_need_refreshing freshToken 0 = .ok false
  ∧ (get_token okResponses heldState).join_invocations = 1
  ∧ (join_experiment okResponses heldState).calls = 1 := by
  refine ⟨rfl, ?_, rfl, rfl⟩
  show does_token_need_refreshing freshToken 0 = .ok false
  rfl

/-- C1 (amended): every call to `get_token` invokes the retry-wrapped join
operation exactly once, unconditionally — whether or not a token is held
and whether or not it needs refreshing — and, when the join does not raise,
returns exactly the token held after the join updated the state; an
exception from the join propagates unchanged. -/
theorem get_token_always_joins (responses : Nat → HttpResponse)
    (s : AuthState) :
    (get_token responses s).join_invocations = 1
  ∧ (∀ t, (get_token responses s).result = .ok t →
      t = (join_experiment responses s).state.local_access_token)
  ∧ (∀ e, (get_token responses s).result = .error e →
      (join_experiment responses s).result = .error e) := by
  refine ⟨?_, ?_, ?_⟩ <;>
    cases h : (join_experiment responses s).result <;>
      simp_all [get_token]

end HFAuth
